import Mathlib

/-
  Verification development for the FAST color-picker element
  (src/unnamed/part_000, class ColorPicker).

  The controller logic is embedded shallowly:
  * JavaScript numbers are idealized as rationals in the main model;
    a second model (namespace Fast.Js) uses an IEEE-style number type
    with NaN and infinities where float-specific behavior matters.
  * The external collaborators (the `@microsoft/fast-colors` parsing and
    conversion primitives and the browser CSS-validity check) are kept
    abstract as a `ColorLib` parameter: every theorem about the
    controller holds for an arbitrary collaborator.
  * Fallible operations (a `null` dereference in the source) return
    `Option`, with `none` marking the thrown `TypeError`.
-/

namespace Fast

/-- JavaScript `Math.round` on a (finite) number: round half toward
positive infinity, `Math.round(q) = ⌊q + 1/2⌋`. -/
def mathRound (q : ℚ) : ℤ :=
  ⌊q + 1 / 2⌋

/-- Source `isNullOrWhiteSpace` from `@microsoft/fast-web-utilities`:
`!value || !value.trim()` — true exactly when the string is empty or
consists of whitespace only. -/
def isNullOrWhiteSpace (s : String) : Bool :=
  s.data.all Char.isWhitespace

/-- Digit value of a hexadecimal digit character. Only called on
characters accepted by `isHexDigitChar`. -/
def hexDigitVal (c : Char) : ℕ :=
  if c.isDigit then c.toNat - '0'.toNat
  else if 'a' ≤ c ∧ c ≤ 'f' then c.toNat - 'a'.toNat + 10
  else if 'A' ≤ c ∧ c ≤ 'F' then c.toNat - 'A'.toNat + 10
  else 0

/-- Whether a character is a hexadecimal digit. -/
def isHexDigitChar (c : Char) : Bool :=
  c.isDigit ∨ ('a' ≤ c ∧ c ≤ 'f') ∨ ('A' ≤ c ∧ c ≤ 'F')

/-- Accumulate a digit list into a natural number in the given base. -/
def digitsToNat (base : ℕ) (ds : List Char) : ℕ :=
  ds.foldl (fun acc c => acc * base + hexDigitVal c) 0

/-- ECMAScript `parseInt(string)` with no explicit radix, idealized to
exact integers: skip leading whitespace, read an optional sign, use
radix 16 when the remainder starts with `0x`/`0X` and radix 10
otherwise, consume the longest prefix of digits, and yield NaN
(modelled `none`) when that prefix is empty. Trailing garbage is
ignored, so `parseInt("12abc") = 12`. -/
def parseIntJS (s : String) : Option ℤ :=
  let cs := s.data.dropWhile Char.isWhitespace
  let signAndRest : ℤ × List Char :=
    match cs with
    | '-' :: rest => (-1, rest)
    | '+' :: rest => (1, rest)
    | _ => (1, cs)
  let sign := signAndRest.1
  let body := signAndRest.2
  match body with
  | '0' :: c :: rest =>
      if c = 'x' ∨ c = 'X' then
        let ds := rest.takeWhile isHexDigitChar
        if ds.isEmpty then none else some (sign * (digitsToNat 16 ds : ℤ))
      else
        let ds := ('0' :: c :: rest).takeWhile Char.isDigit
        if ds.isEmpty then none else some (sign * (digitsToNat 10 ds : ℤ))
  | _ =>
      let ds := body.takeWhile Char.isDigit
      if ds.isEmpty then none else some (sign * (digitsToNat 10 ds : ℤ))

/-- The `ColorRGBA64` record of `@microsoft/fast-colors`: four
channels, `r`, `g`, `b`, `a`, each nominally in `[0,1]`. -/
structure ColorRGBA64 where
  r : ℚ
  g : ℚ
  b : ℚ
  a : ℚ
deriving DecidableEq

/-- The `ColorHSV` record of `@microsoft/fast-colors`: hue in degrees,
saturation and value nominally in `[0,1]`. -/
structure ColorHSV where
  h : ℚ
  s : ℚ
  v : ℚ
deriving DecidableEq

/-- A `DOMRect` as returned by `getBoundingClientRect`, restricted to
the four fields the controller reads. -/
structure Rect where
  left : ℚ
  top : ℚ
  width : ℚ
  height : ℚ
deriving DecidableEq

/-- A mouse event, restricted to what `handleMouseDown` reads: the
bounding box of `composedPath()[0]` and the page coordinates. -/
structure MouseEvt where
  targetRect : Rect
  pageX : ℚ
  pageY : ℚ
deriving DecidableEq

/-- Modelled from the spec: the external color parsing/formatting
collaborator (`@microsoft/fast-colors` functions `parseColor`,
`rgbToHSV`, `hsvToRGB`, `ColorRGBA64.toStringHexRGB`,
`ColorRGBA64.toStringWebRGBA`) and the browser-delegated CSS-color
validity check (`isValideCSSColor`, implemented in the source by a
style-property write/read on the proxy element). These live outside
this repository, so they are kept fully abstract: each theorem holds
for every collaborator. `parseColor` returns `none` where the library
returns `null` for an unparseable string. `hsvToRGB` takes the alpha
to attach to the converted color (the library defaults it to 1; call
sites that omit it pass 1 explicitly here). -/
structure ColorLib where
  parseColor : String → Option ColorRGBA64
  rgbToHSV : ColorRGBA64 → ColorHSV
  hsvToRGB : ColorHSV → ℚ → ColorRGBA64
  toStringHexRGB : ColorRGBA64 → String
  toStringWebRGBA : ColorRGBA64 → String
  isValideCSSColor : String → Bool

/-- The `ColorPickerUI` class of the source: the UI snapshot recomputed
on every change. -/
structure ColorPickerUI where
  RGBColor : ColorRGBA64
  HSVColor : ColorHSV
  HueCSSColor : String
  HuePosition : ℚ
  SatValTopPos : ℚ
  SatValLeftPos : ℚ
  AlphaPos : ℚ
deriving DecidableEq

/-- The `ColorPickerUI` constructor: `HueCSSColor` is the hex string of
the pure hue `HSV(h,1,1)` (the source calls `hsvToRGB(temp)` with the
library's default alpha of 1), and the four thumb positions are
percentages derived from the two colors. -/
def mkColorPickerUI (lib : ColorLib) (rgbColor : ColorRGBA64) (hsvColor : ColorHSV) :
    ColorPickerUI where
  RGBColor := rgbColor
  HSVColor := hsvColor
  HueCSSColor := lib.toStringHexRGB (lib.hsvToRGB ⟨hsvColor.h, 1, 1⟩ 1)
  HuePosition := hsvColor.h / 360 * 100
  SatValTopPos := 100 - hsvColor.v * 100
  SatValLeftPos := hsvColor.s * 100
  AlphaPos := rgbColor.a * 100

/-- The mutable fields of the `ColorPicker` element that the
synchronization logic touches. `value` is the committed external text
value from the form-associated base class. `currentMouseTarget` holds
the bounding box of the drag-anchor element (`none` models the `null`
reset). `emits` counts `$emit("change")` notifications so that
"fires no notification" is expressible. -/
structure PickerState where
  value : String
  isOpen : Bool
  isMouseActive : Bool
  uiValues : ColorPickerUI
  currentMouseTarget : Option Rect
  currentMouseParam : Option String
  currentRGBColor : ColorRGBA64
  currentHSVColor : ColorHSV
  emits : ℕ
deriving DecidableEq

/-- Source `updateUIValues(updateValue)`: rebuild the UI snapshot from
the current colors; when `updateValue` is true additionally commit the
text value (web-RGBA functional string when `a != 1`, hex-RGB string
otherwise) and emit one `change` notification. -/
def updateUIValues (lib : ColorLib) (st : PickerState) (updateValue : Bool) : PickerState :=
  let st1 := { st with uiValues := mkColorPickerUI lib st.currentRGBColor st.currentHSVColor }
  if updateValue then
    { st1 with
        value :=
          if st1.currentRGBColor.a ≠ 1 then lib.toStringWebRGBA st1.currentRGBColor
          else lib.toStringHexRGB st1.currentRGBColor,
        emits := st1.emits + 1 }
  else st1

/-- Source `updateHSV(hue, sat, val)`: replace the HSV color, rederive
RGBA from it preserving the current alpha, and run
`updateUIValues(true)`. -/
def updateHSV (lib : ColorLib) (st : PickerState) (hue sat val : ℚ) : PickerState :=
  let hsv : ColorHSV := ⟨hue, sat, val⟩
  let rgb := lib.hsvToRGB hsv st.currentRGBColor.a
  updateUIValues lib { st with currentHSVColor := hsv, currentRGBColor := rgb } true

/-- Source `connectedCallback`: close the popover, parse the initial
value when it is not blank (the source performs no validity check
first; `parseColor` yields `null` for an invalid string and the
subsequent `rgbToHSV(null)` throws, modelled `none`), default to
opaque red when blank, then derive HSV and compute the initial UI
snapshot with `updateUIValues(false)` — no notification. The base
class call, proxy attribute and autofocus handling are out of scope. -/
def connectedCallback (lib : ColorLib) (st : PickerState) : Option PickerState :=
  let st1 := { st with isOpen := false }
  let rgbOpt : Option ColorRGBA64 :=
    if ¬ isNullOrWhiteSpace st1.value then lib.parseColor st1.value
    else some ⟨1, 0, 0, 1⟩
  match rgbOpt with
  | none => none
  | some rgb =>
      let st2 := { st1 with currentRGBColor := rgb, currentHSVColor := lib.rgbToHSV rgb }
      some (updateUIValues lib st2 false)

/-- Source `handleFocus`: opening the editing surface. -/
def handleFocus (st : PickerState) : PickerState :=
  { st with isOpen := true }

/-- Source `handleBlur`: closing the editing surface. -/
def handleBlur (st : PickerState) : PickerState :=
  { st with isOpen := false }

/-- Source `handleChange`: proxy an inner `change` event outward. -/
def handleChange (st : PickerState) : PickerState :=
  { st with emits := st.emits + 1 }

/-- Source `handleTextInput`: the committed value is set to the typed
string BEFORE validation; only when the CSS-validity check passes are
the colors reparsed, the snapshot recomputed (`updateUIValues(false)`,
keeping the typed string as the value) and one `change` emitted. A
passing validity check with a failing `parseColor` makes
`rgbToHSV(null)` throw, modelled `none`. -/
def handleTextInput (lib : ColorLib) (st : PickerState) (controlValue : String) :
    Option PickerState :=
  let st1 := { st with value := controlValue }
  if lib.isValideCSSColor st1.value then
    match lib.parseColor st1.value with
    | none => none
    | some c =>
        let st2 :=
          updateUIValues lib { st1 with currentRGBColor := c, currentHSVColor := lib.rgbToHSV c }
            false
        some { st2 with emits := st2.emits + 1 }
  else some st1

/-- Source `isValideRGB`: `val >= 0 && val <= 255`. -/
def isValideRGB (val : ℤ) : Bool :=
  0 ≤ val ∧ val ≤ 255

/-- Source `isValideAlpha`: `val >= 0 && val <= 100`. -/
def isValideAlpha (val : ℤ) : Bool :=
  0 ≤ val ∧ val ≤ 100

/-- Source `isValideSatVal`: `val >= 0 && val <= 100`. -/
def isValideSatVal (val : ℤ) : Bool :=
  0 ≤ val ∧ val ≤ 100

/-- Source `isValideHue`: `val >= 0 && val <= 359`. -/
def isValideHue (val : ℤ) : Bool :=
  0 ≤ val ∧ val ≤ 359

/-- Source `handleTextValueInput(param, e)`. The first guard in the
source is `isNullOrWhiteSpace(inputVal) || Number.isNaN(inputVal)`;
`Number.isNaN` applied to a string is always `false` (it performs no
coercion), so only the blank check is effective. `parseInt` returning
NaN is factored into the `none` branch: every range validator is
`false` on NaN (all NaN comparisons are false), so both families of
branches are no-ops there, exactly as in the source. -/
def handleTextValueInput (lib : ColorLib) (st : PickerState) (param : String)
    (inputVal : String) : PickerState :=
  if isNullOrWhiteSpace inputVal then st
  else
    match parseIntJS inputVal with
    | none => st
    | some newVal =>
        if param ∈ (["r", "g", "b", "a"] : List String) then
          if (param ≠ "a" ∧ isValideRGB newVal) ∨ (param = "a" ∧ isValideAlpha newVal) then
            let rgb : ColorRGBA64 :=
              ⟨if param = "r" then (newVal : ℚ) / 255 else st.currentRGBColor.r,
               if param = "g" then (newVal : ℚ) / 255 else st.currentRGBColor.g,
               if param = "b" then (newVal : ℚ) / 255 else st.currentRGBColor.b,
               if param = "a" then (newVal : ℚ) / 100 else st.currentRGBColor.a⟩
            updateUIValues lib
              { st with currentRGBColor := rgb, currentHSVColor := lib.rgbToHSV rgb } true
          else st
        else if param ∈ (["h", "s", "v"] : List String) then
          if (param ≠ "h" ∧ isValideSatVal newVal) ∨ (param = "h" ∧ isValideHue newVal) then
            updateHSV lib st
              (if param = "h" then (newVal : ℚ) else st.currentHSVColor.h)
              (if param = "s" then (newVal : ℚ) / 100 else st.currentHSVColor.s)
              (if param = "v" then (newVal : ℚ) / 100 else st.currentHSVColor.v)
          else st
        else st

/-- The clamped local x-offset of lines 329–337 of the source:
`x = pageX - left`, then `if (x > width) x = width; if (x < 0) x = 0`. -/
def clampedX (pos : Rect) (pageX : ℚ) : ℚ :=
  let x0 := pageX - pos.left
  let x1 := if x0 > pos.width then pos.width else x0
  if x1 < 0 then 0 else x1

/-- The clamped local y-offset of lines 330–337 of the source:
`y = pageY - top`, then `if (y > height) y = height; if (y < 0) y = 0`. -/
def clampedY (pos : Rect) (pageY : ℚ) : ℚ :=
  let y0 := pageY - pos.top
  let y1 := if y0 > pos.height then pos.height else y0
  if y1 < 0 then 0 else y1

/-- Source `updateFromMouseEvent` body, after the bounding box of
`currentMouseTarget` has been resolved to `pos`: clamp the local
offsets, then branch on `currentMouseParam` — hue `'h'` sets
`hue = 359·x/width`; `'sv'` sets `value = round(100 − y·100/height)/100`
and `saturation = round(x·100/width)/100`; `'a'` replaces only alpha by
`round(x·100/width)/100`. Each branch ends in `updateUIValues(true)`
(directly or through `updateHSV`). Any other parameter falls through
with no change. -/
def updateFromMouseEventCore (lib : ColorLib) (st : PickerState) (pos : Rect)
    (pageX pageY : ℚ) : PickerState :=
  let x := clampedX pos pageX
  let y := clampedY pos pageY
  if st.currentMouseParam = some "h" then
    updateHSV lib st (359 * x / pos.width) st.currentHSVColor.s st.currentHSVColor.v
  else if st.currentMouseParam = some "sv" then
    updateHSV lib st st.currentHSVColor.h
      ((mathRound (x * 100 / pos.width) : ℚ) / 100)
      ((mathRound (100 - y * 100 / pos.height) : ℚ) / 100)
  else if st.currentMouseParam = some "a" then
    updateUIValues lib
      { st with
          currentRGBColor :=
            ⟨st.currentRGBColor.r, st.currentRGBColor.g, st.currentRGBColor.b,
             (mathRound (x * 100 / pos.width) : ℚ) / 100⟩ } true
  else st

/-- Source `updateFromMouseEvent(pageX, pageY)`: dereference
`currentMouseTarget.getBoundingClientRect()` (`none` models the throw
on a `null` target) and run the core update. -/
def updateFromMouseEvent (lib : ColorLib) (st : PickerState) (pageX pageY : ℚ) :
    Option PickerState :=
  match st.currentMouseTarget with
  | none => none
  | some pos => some (updateFromMouseEventCore lib st pos pageX pageY)

/-- Source `handleMouseDown(param, e)`: record the anchor element and
zone, run one mouse update at the event coordinates, then mark the
drag active. -/
def handleMouseDown (lib : ColorLib) (st : PickerState) (param : String) (e : MouseEvt) :
    PickerState :=
  let st1 :=
    { st with currentMouseTarget := some e.targetRect, currentMouseParam := some param }
  let st2 := updateFromMouseEventCore lib st1 e.targetRect e.pageX e.pageY
  { st2 with isMouseActive := true }

/-- Source `handleMouseMove(e)`: delegate to the mouse update. -/
def handleMouseMove (lib : ColorLib) (st : PickerState) (e : MouseEvt) : Option PickerState :=
  updateFromMouseEvent lib st e.pageX e.pageY

/-- Source `handleMouseUp(e)`: one final mouse update, then clear the
drag target, zone and active flag. -/
def handleMouseUp (lib : ColorLib) (st : PickerState) (e : MouseEvt) : Option PickerState :=
  match updateFromMouseEvent lib st e.pageX e.pageY with
  | none => none
  | some st1 =>
      some { st1 with currentMouseTarget := none, currentMouseParam := none,
                      isMouseActive := false }

namespace Js

/-
  An IEEE-754-style model of JavaScript numbers, used to settle the
  claims where float-specific behavior (NaN from 0/0) matters. Finite
  values are idealized as exact rationals; the distinction between -0
  and +0 is not modelled (the single rational 0 stands for both, and
  division signs treat it as +0).
-/

/-- A JavaScript number: NaN, the two infinities, or a finite value. -/
inductive JSNum where
  | nan : JSNum
  | inf : JSNum
  | ninf : JSNum
  | fin : ℚ → JSNum
deriving DecidableEq

/-- JavaScript subtraction: NaN propagates; `∞ − ∞ = NaN`. -/
def JSNum.sub : JSNum → JSNum → JSNum
  | .nan, _ => .nan
  | _, .nan => .nan
  | .inf, .inf => .nan
  | .inf, _ => .inf
  | .ninf, .ninf => .nan
  | .ninf, _ => .ninf
  | .fin _, .inf => .ninf
  | .fin _, .ninf => .inf
  | .fin a, .fin b => .fin (a - b)

/-- JavaScript multiplication: NaN propagates; `0 · ∞ = NaN`. -/
def JSNum.mul : JSNum → JSNum → JSNum
  | .nan, _ => .nan
  | _, .nan => .nan
  | .inf, .inf => .inf
  | .inf, .ninf => .ninf
  | .ninf, .inf => .ninf
  | .ninf, .ninf => .inf
  | .inf, .fin b => if b = 0 then .nan else if 0 < b then .inf else .ninf
  | .ninf, .fin b => if b = 0 then .nan else if 0 < b then .ninf else .inf
  | .fin a, .inf => if a = 0 then .nan else if 0 < a then .inf else .ninf
  | .fin a, .ninf => if a = 0 then .nan else if 0 < a then .ninf else .inf
  | .fin a, .fin b => .fin (a * b)

/-- JavaScript division: NaN propagates; `0/0 = NaN`; a nonzero finite
value divided by zero gives a signed infinity (zero treated as +0);
`∞/∞ = NaN`; a finite value divided by an infinity gives 0. -/
def JSNum.div : JSNum → JSNum → JSNum
  | .nan, _ => .nan
  | _, .nan => .nan
  | .inf, .inf => .nan
  | .inf, .ninf => .nan
  | .ninf, .inf => .nan
  | .ninf, .ninf => .nan
  | .inf, .fin b => if 0 ≤ b then .inf else .ninf
  | .ninf, .fin b => if 0 ≤ b then .ninf else .inf
  | .fin _, .inf => .fin 0
  | .fin _, .ninf => .fin 0
  | .fin a, .fin b =>
      if b = 0 then (if a = 0 then .nan else if 0 < a then .inf else .ninf)
      else .fin (a / b)

/-- JavaScript `Math.round`: NaN and the infinities pass through;
finite values round half toward positive infinity. -/
def JSNum.round : JSNum → JSNum
  | .nan => .nan
  | .inf => .inf
  | .ninf => .ninf
  | .fin q => .fin ⌊q + 1 / 2⌋

/-- JavaScript `<` as a Boolean: every comparison with NaN is false. -/
def JSNum.ltb : JSNum → JSNum → Bool
  | .nan, _ => false
  | _, .nan => false
  | .inf, _ => false
  | _, .inf => true
  | .ninf, .ninf => false
  | .ninf, _ => true
  | _, .ninf => false
  | .fin a, .fin b => a < b

/-- JavaScript `>` as a Boolean: `a > b` holds exactly when `b < a`
(both are false when either side is NaN). -/
def JSNum.gtb (a b : JSNum) : Bool :=
  JSNum.ltb b a

/-- The `ColorRGBA64` record over IEEE-style numbers. -/
structure ColorRGBA64 where
  r : JSNum
  g : JSNum
  b : JSNum
  a : JSNum
deriving DecidableEq

/-- The `ColorHSV` record over IEEE-style numbers. -/
structure ColorHSV where
  h : JSNum
  s : JSNum
  v : JSNum
deriving DecidableEq

/-- A `DOMRect` over IEEE-style numbers. -/
structure Rect where
  left : JSNum
  top : JSNum
  width : JSNum
  height : JSNum
deriving DecidableEq

/-- Modelled from the spec: the external color collaborator, over
IEEE-style numbers, restricted to the functions the drag path uses. -/
structure ColorLib where
  rgbToHSV : ColorRGBA64 → ColorHSV
  hsvToRGB : ColorHSV → JSNum → ColorRGBA64
  toStringHexRGB : ColorRGBA64 → String
  toStringWebRGBA : ColorRGBA64 → String

/-- The UI snapshot over IEEE-style numbers. -/
structure ColorPickerUI where
  RGBColor : ColorRGBA64
  HSVColor : ColorHSV
  HueCSSColor : String
  HuePosition : JSNum
  SatValTopPos : JSNum
  SatValLeftPos : JSNum
  AlphaPos : JSNum
deriving DecidableEq

/-- The `ColorPickerUI` constructor over IEEE-style numbers. -/
def mkColorPickerUI (lib : ColorLib) (rgbColor : ColorRGBA64) (hsvColor : ColorHSV) :
    ColorPickerUI where
  RGBColor := rgbColor
  HSVColor := hsvColor
  HueCSSColor := lib.toStringHexRGB (lib.hsvToRGB ⟨hsvColor.h, .fin 1, .fin 1⟩ (.fin 1))
  HuePosition := JSNum.mul (JSNum.div hsvColor.h (.fin 360)) (.fin 100)
  SatValTopPos := JSNum.sub (.fin 100) (JSNum.mul hsvColor.v (.fin 100))
  SatValLeftPos := JSNum.mul hsvColor.s (.fin 100)
  AlphaPos := JSNum.mul rgbColor.a (.fin 100)

/-- The controller state over IEEE-style numbers, restricted to the
fields the drag path touches. -/
structure PickerState where
  value : String
  uiValues : ColorPickerUI
  currentMouseParam : Option String
  currentRGBColor : ColorRGBA64
  currentHSVColor : ColorHSV
  emits : ℕ
deriving DecidableEq

/-- Source `updateUIValues(updateValue)` over IEEE-style numbers. The
source test `this.currentRGBColor.a != 1` is true when the alpha is
NaN (every NaN comparison with `!=` is true in JavaScript), matching
the structural disequality used here. -/
def updateUIValues (lib : ColorLib) (st : PickerState) (updateValue : Bool) : PickerState :=
  let st1 := { st with uiValues := mkColorPickerUI lib st.currentRGBColor st.currentHSVColor }
  if updateValue then
    { st1 with
        value :=
          if st1.currentRGBColor.a ≠ JSNum.fin 1 then lib.toStringWebRGBA st1.currentRGBColor
          else lib.toStringHexRGB st1.currentRGBColor,
        emits := st1.emits + 1 }
  else st1

/-- Source `updateHSV(hue, sat, val)` over IEEE-style numbers. -/
def updateHSV (lib : ColorLib) (st : PickerState) (hue sat val : JSNum) : PickerState :=
  let hsv : ColorHSV := ⟨hue, sat, val⟩
  let rgb := lib.hsvToRGB hsv st.currentRGBColor.a
  updateUIValues lib { st with currentHSVColor := hsv, currentRGBColor := rgb } true

/-- The clamped local x-offset of lines 329–337 of the source, over
IEEE-style numbers and JavaScript comparison semantics. -/
def clampedX (pos : Rect) (pageX : JSNum) : JSNum :=
  let x0 := JSNum.sub pageX pos.left
  let x1 := if JSNum.gtb x0 pos.width then pos.width else x0
  if JSNum.ltb x1 (.fin 0) then .fin 0 else x1

/-- The clamped local y-offset of lines 330–337 of the source, over
IEEE-style numbers and JavaScript comparison semantics. -/
def clampedY (pos : Rect) (pageY : JSNum) : JSNum :=
  let y0 := JSNum.sub pageY pos.top
  let y1 := if JSNum.gtb y0 pos.height then pos.height else y0
  if JSNum.ltb y1 (.fin 0) then .fin 0 else y1

/-- Source `updateFromMouseEvent` body over IEEE-style numbers, with
the anchor bounding box resolved to `pos`. No branch guards against a
zero-sized box, so the divisions by `width`/`height` are performed
unconditionally. -/
def updateFromMouseEventCore (lib : ColorLib) (st : PickerState) (pos : Rect)
    (pageX pageY : JSNum) : PickerState :=
  let x := clampedX pos pageX
  let y := clampedY pos pageY
  if st.currentMouseParam = some "h" then
    updateHSV lib st (JSNum.div (JSNum.mul (.fin 359) x) pos.width)
      st.currentHSVColor.s st.currentHSVColor.v
  else if st.currentMouseParam = some "sv" then
    updateHSV lib st st.currentHSVColor.h
      (JSNum.div (JSNum.round (JSNum.div (JSNum.mul x (.fin 100)) pos.width)) (.fin 100))
      (JSNum.div
        (JSNum.round
          (JSNum.sub (.fin 100) (JSNum.div (JSNum.mul y (.fin 100)) pos.height)))
        (.fin 100))
  else if st.currentMouseParam = some "a" then
    updateUIValues lib
      { st with
          currentRGBColor :=
            ⟨st.currentRGBColor.r, st.currentRGBColor.g, st.currentRGBColor.b,
             JSNum.div (JSNum.round (JSNum.div (JSNum.mul x (.fin 100)) pos.width))
               (.fin 100)⟩ } true
  else st

end Js

/-
  Concrete collaborator instances and states, used by the closed
  witness and counterexample theorems. The collaborator functions are
  deliberately simple: the theorems they instantiate hold for every
  collaborator, so any executable instance suffices.
-/

/-- A collaborator that accepts no string as a CSS color and parses
nothing; `hsvToRGB` attaches the given alpha unchanged. -/
def lib0 : ColorLib where
  parseColor := fun _ => none
  rgbToHSV := fun c => ⟨0, c.g, c.b⟩
  hsvToRGB := fun hsv a => ⟨hsv.s, hsv.v, 0, a⟩
  toStringHexRGB := fun _ => "#848484"
  toStringWebRGBA := fun _ => "rgba(132,132,132,1)"
  isValideCSSColor := fun _ => false

/-- A collaborator that accepts exactly the string `"red"`, parsing it
to opaque red, and serializes every color to `"#ff0000"` in hex form. -/
def lib1 : ColorLib where
  parseColor := fun s => if s = "red" then some ⟨1, 0, 0, 1⟩ else none
  rgbToHSV := fun c => ⟨0, c.g, c.b⟩
  hsvToRGB := fun hsv a => ⟨hsv.s, hsv.v, 0, a⟩
  toStringHexRGB := fun _ => "#ff0000"
  toStringWebRGBA := fun _ => "rgba(255,0,0,1)"
  isValideCSSColor := fun s => s = "red"

/-- An initial UI snapshot for the concrete states. -/
def ui0 : ColorPickerUI :=
  mkColorPickerUI lib0 ⟨1, 0, 0, 1⟩ ⟨0, 1, 1⟩

/-- A concrete resting state: opaque red committed as `"#ff0000"`, no
drag in progress, no notifications emitted yet. -/
def stA : PickerState where
  value := "#ff0000"
  isOpen := false
  isMouseActive := false
  uiValues := ui0
  currentMouseTarget := none
  currentMouseParam := none
  currentRGBColor := ⟨1, 0, 0, 1⟩
  currentHSVColor := ⟨0, 1, 1⟩
  emits := 0

/-- A concrete anchor bounding box of width 100 and height 50 at the
origin. -/
def rect0 : Rect :=
  ⟨0, 0, 100, 50⟩

/-- A concrete anchor bounding box of width 200 and height 50 at the
origin. -/
def rectW : Rect :=
  ⟨0, 0, 200, 50⟩

/-- The resting state in the middle of an alpha-zone drag anchored at
`rect0`. -/
def stDrag : PickerState :=
  { stA with currentMouseTarget := some rect0, currentMouseParam := some "a" }

/-- The resting state in the middle of a saturation-value-zone drag
anchored at `rect0`. -/
def stDragSV : PickerState :=
  { stA with currentMouseTarget := some rect0, currentMouseParam := some "sv" }

/-- The resting state in the middle of a hue-zone drag anchored at
`rectW`. -/
def stDragH : PickerState :=
  { stA with currentMouseTarget := some rectW, currentMouseParam := some "h" }

/-- A concrete IEEE-style collaborator for the NaN theorems. -/
def jsLib0 : Js.ColorLib where
  rgbToHSV := fun c => ⟨c.r, c.g, c.b⟩
  hsvToRGB := fun hsv a => ⟨hsv.h, hsv.s, hsv.v, a⟩
  toStringHexRGB := fun _ => "#848484"
  toStringWebRGBA := fun _ => "rgba(132,132,132,1)"

/-- A concrete IEEE-style UI snapshot. -/
def jsUI0 : Js.ColorPickerUI :=
  Js.mkColorPickerUI jsLib0 ⟨.fin 1, .fin 0, .fin 0, .fin 1⟩ ⟨.fin 0, .fin 1, .fin 1⟩

/-- An IEEE-style state in the middle of a hue-zone drag. -/
def jsStH : Js.PickerState where
  value := "#ff0000"
  uiValues := jsUI0
  currentMouseParam := some "h"
  currentRGBColor := ⟨.fin 1, .fin 0, .fin 0, .fin 1⟩
  currentHSVColor := ⟨.fin 0, .fin 1, .fin 1⟩
  emits := 0

/-- A zero-width IEEE-style anchor bounding box. -/
def jsRect0 : Js.Rect :=
  ⟨.fin 0, .fin 0, .fin 0, .fin 10⟩

/-
  Helper lemmas shared by the claim proofs.
-/

/-- A committing `updateUIValues` call always bumps the notification
count by exactly one. -/
theorem updateUIValues_true_emits (lib : ColorLib) (st : PickerState) :
    (updateUIValues lib st true).emits = st.emits + 1 := by
  simp [updateUIValues]

/-- A committing `updateUIValues` call never returns a state whose
notification count matches the given state. -/
theorem updateUIValues_true_ne (lib : ColorLib) (st0 st : PickerState)
    (h : st0.emits = st.emits) : updateUIValues lib st0 true ≠ st := by
  intro heq
  have h2 := congrArg PickerState.emits heq
  rw [updateUIValues_true_emits] at h2
  omega

/-- After a committing `updateUIValues` call the committed value is the
serialization of the current color: web-RGBA functional string when
the alpha differs from 1, hex-RGB string otherwise. -/
theorem updateUIValues_true_value (lib : ColorLib) (st : PickerState) :
    (updateUIValues lib st true).value =
      if (updateUIValues lib st true).currentRGBColor.a ≠ 1 then
        lib.toStringWebRGBA (updateUIValues lib st true).currentRGBColor
      else lib.toStringHexRGB (updateUIValues lib st true).currentRGBColor := by
  simp [updateUIValues]

/-- The committed text value is the canonical serialization of the
current RGBA color: the web-RGBA functional string when the alpha
differs from 1, the hex-RGB string otherwise. -/
def committedValueOK (lib : ColorLib) (st : PickerState) : Prop :=
  st.value =
    if st.currentRGBColor.a ≠ 1 then lib.toStringWebRGBA st.currentRGBColor
    else lib.toStringHexRGB st.currentRGBColor

/-- Restatement of `updateUIValues_true_value` through
`committedValueOK`. -/
theorem committedValueOK_updateUIValues (lib : ColorLib) (st : PickerState) :
    committedValueOK lib (updateUIValues lib st true) := by
  unfold committedValueOK
  exact updateUIValues_true_value lib st

/-- `updateHSV` ends in a committing `updateUIValues` call. -/
theorem committedValueOK_updateHSV (lib : ColorLib) (st : PickerState) (hue sat val : ℚ) :
    committedValueOK lib (updateHSV lib st hue sat val) := by
  unfold updateHSV
  exact committedValueOK_updateUIValues lib _

/-- `updateUIValues` does not touch the drag-zone field. -/
@[simp] theorem updateUIValues_currentMouseParam (lib : ColorLib) (st : PickerState) (b : Bool) :
    (updateUIValues lib st b).currentMouseParam = st.currentMouseParam := by
  unfold updateUIValues
  split <;> rfl

/-- `updateUIValues` does not touch the current RGBA color. -/
@[simp] theorem updateUIValues_currentRGBColor (lib : ColorLib) (st : PickerState) (b : Bool) :
    (updateUIValues lib st b).currentRGBColor = st.currentRGBColor := by
  unfold updateUIValues
  split <;> rfl

/-- `updateUIValues` does not touch the current HSV color. -/
@[simp] theorem updateUIValues_currentHSVColor (lib : ColorLib) (st : PickerState) (b : Bool) :
    (updateUIValues lib st b).currentHSVColor = st.currentHSVColor := by
  unfold updateUIValues
  split <;> rfl

/-- `updateUIValues` rebuilds the UI snapshot from the current colors. -/
@[simp] theorem updateUIValues_uiValues (lib : ColorLib) (st : PickerState) (b : Bool) :
    (updateUIValues lib st b).uiValues =
      mkColorPickerUI lib st.currentRGBColor st.currentHSVColor := by
  unfold updateUIValues
  split <;> rfl

/-- The HSV color after `updateHSV` is exactly the given triple. -/
@[simp] theorem updateHSV_currentHSVColor (lib : ColorLib) (st : PickerState)
    (hue sat val : ℚ) :
    (updateHSV lib st hue sat val).currentHSVColor = ⟨hue, sat, val⟩ := by
  simp [updateHSV]

/-- The RGBA color after `updateHSV` is rederived from the given triple
with the previous alpha attached. -/
@[simp] theorem updateHSV_currentRGBColor (lib : ColorLib) (st : PickerState)
    (hue sat val : ℚ) :
    (updateHSV lib st hue sat val).currentRGBColor =
      lib.hsvToRGB ⟨hue, sat, val⟩ st.currentRGBColor.a := by
  simp [updateHSV]

/-- `updateHSV` does not touch the drag-zone field. -/
@[simp] theorem updateHSV_currentMouseParam (lib : ColorLib) (st : PickerState)
    (hue sat val : ℚ) :
    (updateHSV lib st hue sat val).currentMouseParam = st.currentMouseParam := by
  simp [updateHSV]

/-- The UI snapshot after `updateHSV` is rebuilt from the rederived
colors. -/
@[simp] theorem updateHSV_uiValues (lib : ColorLib) (st : PickerState) (hue sat val : ℚ) :
    (updateHSV lib st hue sat val).uiValues =
      mkColorPickerUI lib (lib.hsvToRGB ⟨hue, sat, val⟩ st.currentRGBColor.a)
        ⟨hue, sat, val⟩ := by
  simp [updateHSV]

/-- `updateHSV` bumps the notification count by one. -/
@[simp] theorem updateHSV_emits (lib : ColorLib) (st : PickerState) (hue sat val : ℚ) :
    (updateHSV lib st hue sat val).emits = st.emits + 1 := by
  unfold updateHSV
  exact updateUIValues_true_emits lib _

/-- The committed value after `updateHSV` serializes the rederived
color. -/
theorem updateHSV_value (lib : ColorLib) (st : PickerState) (hue sat val : ℚ) :
    (updateHSV lib st hue sat val).value =
      if (lib.hsvToRGB ⟨hue, sat, val⟩ st.currentRGBColor.a).a ≠ 1 then
        lib.toStringWebRGBA (lib.hsvToRGB ⟨hue, sat, val⟩ st.currentRGBColor.a)
      else lib.toStringHexRGB (lib.hsvToRGB ⟨hue, sat, val⟩ st.currentRGBColor.a) := by
  simp [updateHSV, updateUIValues]

/-
  Claim C1.
-/

/-- Claim C1 as stated is false: on an invalid (or blank) input string
the free-text edit operation does NOT leave all state unchanged — the
source assigns `this.value = this.control.value` before validating, so
the committed external text value becomes the typed string. Here the
state `stA` has committed value `"#ff0000"`, the collaborator `lib0`
rejects every string, yet `handleTextInput` on `"not-a-color"` returns
a state whose committed value is `"not-a-color"`. -/
theorem handleTextInput_invalid_changes_value :
    handleTextInput lib0 stA "not-a-color" ≠ some stA ∧
    (handleTextInput lib0 stA "not-a-color").map PickerState.value = some "not-a-color" ∧
    stA.value = "#ff0000" ∧ lib0.isValideCSSColor "not-a-color" = false := by
  decide

/-- Claim C1 (amended): for every collaborator, state and input string
rejected by the CSS-validity check (which rejects blank strings: a
blank assigned to a style property reads back empty), the free-text
edit operation leaves `currentRGBColor`, `currentHSVColor`, the UI
snapshot and the notification count unchanged and fires no change
notification, but it does overwrite the committed external text value
with the typed string. -/
theorem handleTextInput_invalid_keeps_colors (lib : ColorLib) (st : PickerState) (s : String)
    (h : lib.isValideCSSColor s = false) :
    handleTextInput lib st s = some { st with value := s } := by
  unfold handleTextInput
  simp [h]

/-- Witness for `handleTextInput_invalid_keeps_colors` at the concrete
rejecting collaborator `lib0`, state `stA` and input `"not-a-color"`. -/
theorem handleTextInput_invalid_keeps_colors_witness :
    handleTextInput lib0 stA "not-a-color" = some { stA with value := "not-a-color" } :=
  handleTextInput_invalid_keeps_colors lib0 stA "not-a-color" (by decide)

/-
  Claim C2.
-/

/-- Claim C2 describes the intended attach behavior, but the code has a
bug on the invalid non-blank path: `connectedCallback` checks only for
blankness before calling `parseColor`, so a non-blank invalid initial
value does not default to opaque red — `parseColor` returns `null` and
the following `rgbToHSV(null)` throws (modelled: the operation returns
`none` instead of a state). -/
theorem connectedCallback_invalid_nonblank_crashes (lib : ColorLib) (st : PickerState)
    (h1 : isNullOrWhiteSpace st.value = false) (h2 : lib.parseColor st.value = none) :
    connectedCallback lib st = none := by
  unfold connectedCallback
  simp [h1, h2]

/-- Witness for `connectedCallback_invalid_nonblank_crashes` at the
concrete non-blank initial value `"not-a-color"`, which `lib0` fails
to parse. -/
theorem connectedCallback_invalid_nonblank_crashes_witness :
    connectedCallback lib0 { stA with value := "not-a-color" } = none :=
  connectedCallback_invalid_nonblank_crashes lib0 { stA with value := "not-a-color" }
    (by decide) (by decide)

/-
  Claim C10.
-/

/-- Claim C10: for every collaborator, state and input string that
passes the CSS-validity check and parses, the free-text edit commits
exactly the typed string as the external value (the value is assigned
before validation and `updateUIValues` is called with
`updateValue = false`, which does not overwrite it with the canonical
serialization), reparses the colors, recomputes the snapshot, and
fires exactly one change notification. -/
theorem handleTextInput_valid_keeps_typed_string (lib : ColorLib) (st : PickerState)
    (s : String) (c : ColorRGBA64)
    (hv : lib.isValideCSSColor s = true) (hp : lib.parseColor s = some c) :
    handleTextInput lib st s =
      some { st with
               value := s
               currentRGBColor := c
               currentHSVColor := lib.rgbToHSV c
               uiValues := mkColorPickerUI lib c (lib.rgbToHSV c)
               emits := st.emits + 1 } := by
  unfold handleTextInput updateUIValues
  simp [hv, hp]

/-- Witness for `handleTextInput_valid_keeps_typed_string` at the
concrete accepting collaborator `lib1`, state `stA` and input
`"red"` — a valid color string that differs from its canonical
serialization `"#ff0000"`. -/
theorem handleTextInput_valid_keeps_typed_string_witness :
    handleTextInput lib1 stA "red" =
      some { stA with
               value := "red"
               currentRGBColor := ⟨1, 0, 0, 1⟩
               currentHSVColor := lib1.rgbToHSV ⟨1, 0, 0, 1⟩
               uiValues := mkColorPickerUI lib1 ⟨1, 0, 0, 1⟩ (lib1.rgbToHSV ⟨1, 0, 0, 1⟩)
               emits := stA.emits + 1 } :=
  handleTextInput_valid_keeps_typed_string lib1 stA "red" ⟨1, 0, 0, 1⟩ (by decide) (by decide)

/-
  Claim C3.
-/

/-- The guard the source applies to a parsed numeric-field value, as a
function of the channel name: `isValideRGB` for `r`/`g`/`b`,
`isValideAlpha` for `a`, `isValideHue` for `h`, `isValideSatVal` for
`s`/`v`, and vacuously false for any other channel. -/
def paramValidVal (param : String) (n : ℤ) : Bool :=
  if param = "a" then isValideAlpha n
  else if param ∈ (["r", "g", "b"] : List String) then isValideRGB n
  else if param = "h" then isValideHue n
  else if param ∈ (["s", "v"] : List String) then isValideSatVal n
  else false

/-- An accepted numeric-field edit always changes the state: it ends in
a committing `updateUIValues` call, which bumps the notification
count. -/
theorem handleTextValueInput_accepted_ne (lib : ColorLib) (st : PickerState) (param s : String)
    (n : ℤ) (hb : isNullOrWhiteSpace s = false) (hn : parseIntJS s = some n)
    (hp : param ∈ (["r", "g", "b", "a", "h", "s", "v"] : List String))
    (hv : paramValidVal param n = true) :
    handleTextValueInput lib st param s ≠ st := by
  fin_cases hp <;>
    simp_all [handleTextValueInput, paramValidVal, updateHSV] <;>
    exact updateUIValues_true_ne lib _ st rfl

/-- Claim C3 as stated is false: the numeric-field edit is NOT a no-op
on every non-numeric string. The source's guard `Number.isNaN(inputVal)`
is applied to a string and is therefore always false, and `parseInt`
accepts a string with trailing garbage, so the non-numeric input
`"12abc"` on channel `r` parses to 12, passes the range check and
mutates the state (and emits a notification). -/
theorem handleTextValueInput_accepts_trailing_garbage :
    handleTextValueInput lib0 stA "r" "12abc" ≠ stA ∧
    parseIntJS "12abc" = some 12 ∧ isValideRGB 12 = true :=
  ⟨handleTextValueInput_accepted_ne lib0 stA "r" "12abc" 12 (by decide) (by decide)
      (by decide) (by decide),
   by decide, by decide⟩

/-- A numeric-field edit whose input is blank, fails to parse, or
parses out of range is a no-op. -/
theorem handleTextValueInput_rejected_eq (lib : ColorLib) (st : PickerState) (param s : String)
    (h : isNullOrWhiteSpace s = true ∨ parseIntJS s = none ∨
      ∃ n, parseIntJS s = some n ∧ paramValidVal param n = false) :
    handleTextValueInput lib st param s = st := by
  rcases h with hb | hn | ⟨n, hn, hv⟩
  · simp [handleTextValueInput, hb]
  · simp [handleTextValueInput, hn]
  · by_cases hb : isNullOrWhiteSpace s = true
    · simp [handleTextValueInput, hb]
    · by_cases h1 : param ∈ (["r", "g", "b", "a"] : List String)
      · fin_cases h1 <;> simp_all [handleTextValueInput, paramValidVal]
      · by_cases h2 : param ∈ (["h", "s", "v"] : List String)
        · fin_cases h2 <;> simp_all [handleTextValueInput, paramValidVal]
        · simp [handleTextValueInput, hb, hn, h1, h2]

/-- Claim C3 (amended): for every channel, the numeric-field edit is a
no-op exactly when the raw string is blank, has no parseable integer
prefix under JavaScript `parseInt` semantics (which skip leading
whitespace, accept a `0x` hex prefix and ignore trailing garbage,
so e.g. `"12abc"` parses to 12 and is NOT rejected), or parses to a
value outside the channel's legal range — r/g/b in [0,255], a in
[0,100], h in [0,359], s/v in [0,100]. In particular `("h","359")` is
accepted and `("h","360")` is rejected (see the witness). -/
theorem handleTextValueInput_noop_iff (lib : ColorLib) (st : PickerState) (param s : String)
    (hp : param ∈ (["r", "g", "b", "a", "h", "s", "v"] : List String)) :
    handleTextValueInput lib st param s = st ↔
      (isNullOrWhiteSpace s = true ∨ parseIntJS s = none ∨
        ∃ n, parseIntJS s = some n ∧ paramValidVal param n = false) := by
  constructor
  · intro heq
    by_contra hneg
    push_neg at hneg
    obtain ⟨hb, hn, hv⟩ := hneg
    rcases ho : parseIntJS s with _ | n
    · exact hn ho
    · exact handleTextValueInput_accepted_ne lib st param s n
        (Bool.not_eq_true _ ▸ Bool.of_not_eq_true hb) ho hp
        (Bool.not_eq_false _ ▸ Bool.of_not_eq_false (hv n ho)) heq
  · exact handleTextValueInput_rejected_eq lib st param s

/-- Witness for `handleTextValueInput_noop_iff` on the hue channel:
`"360"` is rejected (a no-op) while `"359"` is accepted (the state
changes). Both directions of the equivalence are exercised. -/
theorem handleTextValueInput_noop_iff_witness :
    handleTextValueInput lib0 stA "h" "360" = stA ∧
    handleTextValueInput lib0 stA "h" "359" ≠ stA := by
  constructor
  · exact (handleTextValueInput_noop_iff lib0 stA "h" "360" (by decide)).mpr (by decide)
  · intro heq
    exact absurd ((handleTextValueInput_noop_iff lib0 stA "h" "359" (by decide)).mp heq)
      (by decide)

/-
  Claim C4.
-/

/-- A numeric-field edit either leaves the state unchanged or ends in a
committing `updateUIValues` call, after which the committed value is
the canonical serialization. -/
theorem handleTextValueInput_st_or_ok (lib : ColorLib) (st : PickerState) (param s : String) :
    handleTextValueInput lib st param s = st ∨
      committedValueOK lib (handleTextValueInput lib st param s) := by
  unfold handleTextValueInput
  by_cases hb : isNullOrWhiteSpace s = true
  · simp [hb]
  · rcases ho : parseIntJS s with _ | n <;>
      simp only [hb, ho, Bool.false_eq_true, if_false]
    · exact Or.inl trivial
    · split_ifs <;>
        first
          | exact Or.inl rfl
          | exact Or.inl trivial
          | exact Or.inr (committedValueOK_updateUIValues lib _)

/-- A drag update either leaves the state unchanged (unknown zone) or
ends in a committing `updateUIValues` call, after which the committed
value is the canonical serialization. -/
theorem updateFromMouseEventCore_st_or_ok (lib : ColorLib) (st : PickerState) (pos : Rect)
    (pageX pageY : ℚ) :
    updateFromMouseEventCore lib st pos pageX pageY = st ∨
      committedValueOK lib (updateFromMouseEventCore lib st pos pageX pageY) := by
  unfold updateFromMouseEventCore
  split_ifs <;>
    first
      | exact Or.inl rfl
      | exact Or.inr (committedValueOK_updateUIValues lib _)

/-- Claim C4 as stated ("this holds after any edit") is false: a valid
free-text edit is a committed edit (it updates the authoritative state
and fires a change notification, `emits = 1` below), its resulting
color has alpha 1, and yet the committed value is the typed string
`"red"`, not the hex-RGB serialization of the color. -/
theorem freetext_edit_value_not_serialized :
    (handleTextInput lib1 stA "red").map
        (fun s => (decide (s.currentRGBColor.a = 1),
                   decide (s.value = lib1.toStringHexRGB s.currentRGBColor),
                   s.emits)) = some (true, false, 1) := by
  decide

/-- Claim C4 (amended): after any state-changing numeric-field edit and
after any state-changing drag update (the edits that reach
`updateUIValues` with `updateValue = true`), the committed external
text value equals the hex-RGB serialization of the resulting RGBA
color when its alpha is 1, and the web-RGBA functional serialization
otherwise. Free-text edits are excluded: they keep the typed string
as the committed value. -/
theorem committed_edits_serialize_value (lib : ColorLib) (st : PickerState) :
    (∀ param s, handleTextValueInput lib st param s ≠ st →
        committedValueOK lib (handleTextValueInput lib st param s))
    ∧ ∀ pos pageX pageY, updateFromMouseEventCore lib st pos pageX pageY ≠ st →
        committedValueOK lib (updateFromMouseEventCore lib st pos pageX pageY) :=
  ⟨fun param s hne => (handleTextValueInput_st_or_ok lib st param s).resolve_left hne,
   fun pos pageX pageY hne =>
     (updateFromMouseEventCore_st_or_ok lib st pos pageX pageY).resolve_left hne⟩

/-- Witness for `committed_edits_serialize_value`: a concrete
alpha-zone drag update changes the state (its notification count is
bumped), so its committed value is the canonical serialization. -/
theorem committed_edits_serialize_value_witness :
    committedValueOK lib0 (updateFromMouseEventCore lib0 stDrag rect0 25 0) :=
  (committed_edits_serialize_value lib0 stDrag).2 rect0 25 0 (by
    intro h
    have h2 := congrArg PickerState.emits h
    simp [updateFromMouseEventCore, updateUIValues_true_emits, stDrag, stA] at h2)

/-
  Claim C7.
-/

/-- A pointer whose local x-offset is already within `[0, width]` is
unchanged by the clamping sequence. -/
theorem clampedX_eq (pos : Rect) (x : ℚ) (hx0 : 0 ≤ x) (hxw : x ≤ pos.width) :
    clampedX pos (pos.left + x) = x := by
  simp only [clampedX, add_sub_cancel_left]
  rw [if_neg (not_lt.mpr hxw), if_neg (not_lt.mpr hx0)]

/-- A pointer whose local y-offset is already within `[0, height]` is
unchanged by the clamping sequence. -/
theorem clampedY_eq (pos : Rect) (y : ℚ) (hy0 : 0 ≤ y) (hyh : y ≤ pos.height) :
    clampedY pos (pos.top + y) = y := by
  simp only [clampedY, add_sub_cancel_left]
  rw [if_neg (not_lt.mpr hyh), if_neg (not_lt.mpr hy0)]

/-- A pointer at or left of the anchor's left edge clamps to a zero
x-offset. -/
theorem clampedX_nonpos (pos : Rect) (pageX : ℚ) (hw : 0 ≤ pos.width)
    (h : pageX - pos.left ≤ 0) : clampedX pos pageX = 0 := by
  simp only [clampedX]
  rw [if_neg (not_lt.mpr (h.trans hw))]
  by_cases h2 : pageX - pos.left < 0
  · rw [if_pos h2]
  · rw [if_neg h2]
    exact le_antisymm h (not_lt.mp h2)

/-- Claim C7: the local drag offsets are clamped to `[0, width]` and
`[0, height]` before any color computation, and consequently a pointer
at or beyond the left edge (e.g. local offset −50 on a width-200
anchor) produces exactly the same resulting state as a pointer at the
edge itself (local offset 0). -/
theorem drag_pointer_clamped (lib : ColorLib) (st : PickerState) (pos : Rect)
    (pageX pageY : ℚ) (hw : 0 ≤ pos.width) (hh : 0 ≤ pos.height) :
    (0 ≤ clampedX pos pageX ∧ clampedX pos pageX ≤ pos.width ∧
      0 ≤ clampedY pos pageY ∧ clampedY pos pageY ≤ pos.height) ∧
    (pageX - pos.left ≤ 0 →
      updateFromMouseEventCore lib st pos pageX pageY =
        updateFromMouseEventCore lib st pos pos.left pageY) := by
  constructor
  · refine ⟨?_, ?_, ?_, ?_⟩ <;>
      · simp only [clampedX, clampedY]
        split_ifs <;> linarith
  · intro hle
    have hx : clampedX pos pageX = clampedX pos pos.left := by
      rw [clampedX_nonpos pos pageX hw hle, clampedX_nonpos pos pos.left hw (by simp)]
    simp only [updateFromMouseEventCore, hx]

/-- Witness for `drag_pointer_clamped`: on the width-200 anchor `rectW`
a pointer 50 to the left of the box (`pageX = −50`, local offset −50)
yields the same state as a pointer at the left edge. -/
theorem drag_pointer_clamped_witness :
    updateFromMouseEventCore lib0 stDragH rectW (-50) 0 =
      updateFromMouseEventCore lib0 stDragH rectW rectW.left 0 :=
  (drag_pointer_clamped lib0 stDragH rectW (-50) 0 (by norm_num [rectW])
      (by norm_num [rectW])).2 (by norm_num [rectW])

/-
  Claim C5.
-/

/-- Claim C5: during a saturation-value drag with clamped local offsets
`(x, y)` on an anchor of positive size, the new HSV is
`HSV(currentH, round(100·x/width)/100, round(100 − 100·y/height)/100)`
(whole-percent rounding, hue unchanged), the RGBA color is rederived
from it preserving the current alpha, the snapshot is rebuilt from the
new colors, the committed value is the canonical serialization, and
exactly one change notification fires. (The positivity hypotheses mark
the domain on which the rational model is faithful to the JavaScript
floats; a zero-size anchor instead produces NaN, see the zero-size
drag theorem.) -/
theorem satval_drag_formula (lib : ColorLib) (st : PickerState) (pos : Rect) (x y : ℚ)
    (hzone : st.currentMouseParam = some "sv")
    (hw : 0 < pos.width) (hh : 0 < pos.height)
    (hx0 : 0 ≤ x) (hxw : x ≤ pos.width) (hy0 : 0 ≤ y) (hyh : y ≤ pos.height) :
    (updateFromMouseEventCore lib st pos (pos.left + x) (pos.top + y)).currentHSVColor =
        ⟨st.currentHSVColor.h, (mathRound (100 * x / pos.width) : ℚ) / 100,
         (mathRound (100 - 100 * y / pos.height) : ℚ) / 100⟩ ∧
    (updateFromMouseEventCore lib st pos (pos.left + x) (pos.top + y)).currentRGBColor =
        lib.hsvToRGB
          ⟨st.currentHSVColor.h, (mathRound (100 * x / pos.width) : ℚ) / 100,
           (mathRound (100 - 100 * y / pos.height) : ℚ) / 100⟩
          st.currentRGBColor.a ∧
    (updateFromMouseEventCore lib st pos (pos.left + x) (pos.top + y)).uiValues =
        mkColorPickerUI lib
          (updateFromMouseEventCore lib st pos (pos.left + x) (pos.top + y)).currentRGBColor
          (updateFromMouseEventCore lib st pos (pos.left + x) (pos.top + y)).currentHSVColor ∧
    committedValueOK lib (updateFromMouseEventCore lib st pos (pos.left + x) (pos.top + y)) ∧
    (updateFromMouseEventCore lib st pos (pos.left + x) (pos.top + y)).emits =
      st.emits + 1 := by
  have hx := clampedX_eq pos x hx0 hxw
  have hy := clampedY_eq pos y hy0 hyh
  have hns : st.currentMouseParam ≠ some "h" := by rw [hzone]; decide
  simp only [updateFromMouseEventCore, hx, hy, if_neg hns, if_pos hzone,
    mul_comm x (100 : ℚ), mul_comm y (100 : ℚ)]
  refine ⟨by simp, by simp, by simp, committedValueOK_updateHSV lib _ _ _ _, by simp⟩

/-- Witness for `satval_drag_formula`: a drag to local offset
`(25, 10)` on the 100×50 anchor `rect0` sets saturation 1/4 and value
4/5 with the hue untouched. -/
theorem satval_drag_formula_witness :
    (updateFromMouseEventCore lib0 stDragSV rect0 (rect0.left + 25)
        (rect0.top + 10)).currentHSVColor =
      ⟨stDragSV.currentHSVColor.h, (mathRound (100 * 25 / rect0.width) : ℚ) / 100,
       (mathRound (100 - 100 * 10 / rect0.height) : ℚ) / 100⟩ ∧
    ((mathRound (100 * 25 / rect0.width) : ℚ) / 100 = 1 / 4 ∧
      (mathRound (100 - 100 * 10 / rect0.height) : ℚ) / 100 = 4 / 5) := by
  have h := satval_drag_formula lib0 stDragSV rect0 25 10 rfl (by norm_num [rect0])
    (by norm_num [rect0]) (by norm_num) (by norm_num [rect0]) (by norm_num)
    (by norm_num [rect0])
  exact ⟨h.1, by norm_num [mathRound, rect0], by norm_num [mathRound, rect0]⟩

/-
  Claim C6.
-/

/-- Claim C6: during an alpha drag with clamped local offset `x` on an
anchor of positive width, the new RGBA keeps the current `r`, `g`, `b`
channels and replaces only alpha by `round(100·x/width)/100`; the HSV
color is untouched, the snapshot is rebuilt, the committed value is
the canonical serialization, and exactly one change notification
fires. -/
theorem alpha_drag_formula (lib : ColorLib) (st : PickerState) (pos : Rect) (x pageY : ℚ)
    (hzone : st.currentMouseParam = some "a")
    (hw : 0 < pos.width) (hx0 : 0 ≤ x) (hxw : x ≤ pos.width) :
    (updateFromMouseEventCore lib st pos (pos.left + x) pageY).currentRGBColor =
        ⟨st.currentRGBColor.r, st.currentRGBColor.g, st.currentRGBColor.b,
         (mathRound (100 * x / pos.width) : ℚ) / 100⟩ ∧
    (updateFromMouseEventCore lib st pos (pos.left + x) pageY).currentHSVColor =
        st.currentHSVColor ∧
    (updateFromMouseEventCore lib st pos (pos.left + x) pageY).uiValues =
        mkColorPickerUI lib
          (updateFromMouseEventCore lib st pos (pos.left + x) pageY).currentRGBColor
          (updateFromMouseEventCore lib st pos (pos.left + x) pageY).currentHSVColor ∧
    committedValueOK lib (updateFromMouseEventCore lib st pos (pos.left + x) pageY) ∧
    (updateFromMouseEventCore lib st pos (pos.left + x) pageY).emits = st.emits + 1 := by
  have hx := clampedX_eq pos x hx0 hxw
  have hns1 : st.currentMouseParam ≠ some "h" := by rw [hzone]; decide
  have hns2 : st.currentMouseParam ≠ some "sv" := by rw [hzone]; decide
  simp only [updateFromMouseEventCore, hx, if_neg hns1, if_neg hns2, if_pos hzone,
    mul_comm x (100 : ℚ)]
  exact ⟨by simp, by simp, by simp, committedValueOK_updateUIValues lib _,
    updateUIValues_true_emits lib _⟩

/-- Witness for `alpha_drag_formula`, realizing the end-to-end scenario
of the claim: an alpha drag at local offset `x = 25` on the width-100
anchor `rect0` makes alpha 1/4 = 0.25 and commits the web-RGBA
functional string of the resulting color (its alpha differs from 1). -/
theorem alpha_drag_formula_witness :
    (updateFromMouseEventCore lib0 stDrag rect0 (rect0.left + 25) 0).currentRGBColor =
      ⟨stDrag.currentRGBColor.r, stDrag.currentRGBColor.g, stDrag.currentRGBColor.b,
       (mathRound (100 * 25 / rect0.width) : ℚ) / 100⟩ ∧
    (mathRound (100 * 25 / rect0.width) : ℚ) / 100 = 1 / 4 ∧
    (updateFromMouseEventCore lib0 stDrag rect0 (rect0.left + 25) 0).value =
      lib0.toStringWebRGBA
        (updateFromMouseEventCore lib0 stDrag rect0 (rect0.left + 25) 0).currentRGBColor := by
  have h := alpha_drag_formula lib0 stDrag rect0 25 0 rfl (by norm_num [rect0])
    (by norm_num) (by norm_num [rect0])
  have ha : (updateFromMouseEventCore lib0 stDrag rect0 (rect0.left + 25) 0).currentRGBColor.a
      = 1 / 4 := by
    rw [h.1]
    norm_num [mathRound, rect0]
  have hok := h.2.2.2.1
  unfold committedValueOK at hok
  rw [if_pos (by rw [ha]; norm_num)] at hok
  exact ⟨h.1, by norm_num [mathRound, rect0], hok⟩

/-
  Claim C8.
-/

/-- Claim C8: with the anchor bounding box unchanged, applying the drag
update twice with identical pointer coordinates yields the same color
state and UI snapshot as applying it once — the update is idempotent.
The hypothesis states the collaborator contract that `hsvToRGB`
attaches the given alpha unchanged (as the `@microsoft/fast-colors`
implementation does); only the notification count differs between the
two runs, which is why the comparison is on the color, snapshot and
committed-value fields. -/
theorem drag_update_idempotent (lib : ColorLib) (st : PickerState) (pos : Rect) (pX pY : ℚ)
    (halpha : ∀ hsv a, (lib.hsvToRGB hsv a).a = a) :
    (updateFromMouseEventCore lib (updateFromMouseEventCore lib st pos pX pY) pos
          pX pY).currentRGBColor =
        (updateFromMouseEventCore lib st pos pX pY).currentRGBColor ∧
    (updateFromMouseEventCore lib (updateFromMouseEventCore lib st pos pX pY) pos
          pX pY).currentHSVColor =
        (updateFromMouseEventCore lib st pos pX pY).currentHSVColor ∧
    (updateFromMouseEventCore lib (updateFromMouseEventCore lib st pos pX pY) pos
          pX pY).uiValues =
        (updateFromMouseEventCore lib st pos pX pY).uiValues ∧
    (updateFromMouseEventCore lib (updateFromMouseEventCore lib st pos pX pY) pos
          pX pY).value =
        (updateFromMouseEventCore lib st pos pX pY).value := by
  by_cases h1 : st.currentMouseParam = some "h"
  · have e1 : updateFromMouseEventCore lib st pos pX pY =
        updateHSV lib st (359 * clampedX pos pX / pos.width) st.currentHSVColor.s
          st.currentHSVColor.v := by
      simp only [updateFromMouseEventCore]
      rw [if_pos h1]
    rw [e1]
    have h1b : (updateHSV lib st (359 * clampedX pos pX / pos.width) st.currentHSVColor.s
        st.currentHSVColor.v).currentMouseParam = some "h" := by simp [h1]
    simp only [updateFromMouseEventCore]
    rw [if_pos h1b]
    refine ⟨?_, ?_, ?_, ?_⟩ <;> simp [halpha, updateHSV_value]
  · by_cases h2 : st.currentMouseParam = some "sv"
    · have e1 : updateFromMouseEventCore lib st pos pX pY =
          updateHSV lib st st.currentHSVColor.h
            ((mathRound (clampedX pos pX * 100 / pos.width) : ℚ) / 100)
            ((mathRound (100 - clampedY pos pY * 100 / pos.height) : ℚ) / 100) := by
        simp only [updateFromMouseEventCore]
        rw [if_neg h1, if_pos h2]
      rw [e1]
      have h2b : (updateHSV lib st st.currentHSVColor.h
          ((mathRound (clampedX pos pX * 100 / pos.width) : ℚ) / 100)
          ((mathRound (100 - clampedY pos pY * 100 / pos.height) : ℚ) / 100)).currentMouseParam
          = some "sv" := by simp [h2]
      have h2c : (updateHSV lib st st.currentHSVColor.h
          ((mathRound (clampedX pos pX * 100 / pos.width) : ℚ) / 100)
          ((mathRound (100 - clampedY pos pY * 100 / pos.height) : ℚ) / 100)).currentMouseParam
          ≠ some "h" := by simp [h2]
      simp only [updateFromMouseEventCore]
      rw [if_neg h2c, if_pos h2b]
      refine ⟨?_, ?_, ?_, ?_⟩ <;> simp [halpha, updateHSV_value]
    · by_cases h3 : st.currentMouseParam = some "a"
      · have e1 : updateFromMouseEventCore lib st pos pX pY =
            updateUIValues lib
              { st with
                  currentRGBColor :=
                    ⟨st.currentRGBColor.r, st.currentRGBColor.g, st.currentRGBColor.b,
                     (mathRound (clampedX pos pX * 100 / pos.width) : ℚ) / 100⟩ } true := by
          simp only [updateFromMouseEventCore]
          rw [if_neg h1, if_neg h2, if_pos h3]
        rw [e1]
        have h3b : (updateUIValues lib
            { st with
                currentRGBColor :=
                  ⟨st.currentRGBColor.r, st.currentRGBColor.g, st.currentRGBColor.b,
                   (mathRound (clampedX pos pX * 100 / pos.width) : ℚ) / 100⟩ }
            true).currentMouseParam = some "a" := by simp [h3]
        have h3c : (updateUIValues lib
            { st with
                currentRGBColor :=
                  ⟨st.currentRGBColor.r, st.currentRGBColor.g, st.currentRGBColor.b,
                   (mathRound (clampedX pos pX * 100 / pos.width) : ℚ) / 100⟩ }
            true).currentMouseParam ≠ some "h" := by simp [h3]
        have h3d : (updateUIValues lib
            { st with
                currentRGBColor :=
                  ⟨st.currentRGBColor.r, st.currentRGBColor.g, st.currentRGBColor.b,
                   (mathRound (clampedX pos pX * 100 / pos.width) : ℚ) / 100⟩ }
            true).currentMouseParam ≠ some "sv" := by simp [h3]
        simp only [updateFromMouseEventCore]
        rw [if_neg h3c, if_neg h3d, if_pos h3b]
        refine ⟨?_, ?_, ?_, ?_⟩ <;> simp [updateUIValues, mkColorPickerUI]
      · have e1 : updateFromMouseEventCore lib st pos pX pY = st := by
          simp only [updateFromMouseEventCore]
          rw [if_neg h1, if_neg h2, if_neg h3]
        simp only [e1, and_self]

/-- Witness for `drag_update_idempotent` at the concrete alpha-zone
drag state `stDrag`: the collaborator `lib0` attaches alpha unchanged,
so the hypothesis is discharged by `rfl`. -/
theorem drag_update_idempotent_witness :
    (updateFromMouseEventCore lib0 (updateFromMouseEventCore lib0 stDrag rect0 25 0) rect0
          25 0).currentRGBColor =
        (updateFromMouseEventCore lib0 stDrag rect0 25 0).currentRGBColor ∧
    (updateFromMouseEventCore lib0 (updateFromMouseEventCore lib0 stDrag rect0 25 0) rect0
          25 0).currentHSVColor =
        (updateFromMouseEventCore lib0 stDrag rect0 25 0).currentHSVColor ∧
    (updateFromMouseEventCore lib0 (updateFromMouseEventCore lib0 stDrag rect0 25 0) rect0
          25 0).uiValues =
        (updateFromMouseEventCore lib0 stDrag rect0 25 0).uiValues ∧
    (updateFromMouseEventCore lib0 (updateFromMouseEventCore lib0 stDrag rect0 25 0) rect0
          25 0).value =
        (updateFromMouseEventCore lib0 stDrag rect0 25 0).value :=
  drag_update_idempotent lib0 stDrag rect0 25 0 (fun _ _ => rfl)

/-
  Claim C9.
-/

/-- In the IEEE-style model, `updateUIValues` does not touch the
current HSV color. -/
@[simp] theorem js_updateUIValues_currentHSVColor (lib : Js.ColorLib) (st : Js.PickerState)
    (b : Bool) : (Js.updateUIValues lib st b).currentHSVColor = st.currentHSVColor := by
  unfold Js.updateUIValues
  split <;> rfl

/-- In the IEEE-style model, `updateUIValues` does not touch the
current RGBA color. -/
@[simp] theorem js_updateUIValues_currentRGBColor (lib : Js.ColorLib) (st : Js.PickerState)
    (b : Bool) : (Js.updateUIValues lib st b).currentRGBColor = st.currentRGBColor := by
  unfold Js.updateUIValues
  split <;> rfl

/-- In the IEEE-style model, the HSV color after `updateHSV` is exactly
the given triple. -/
@[simp] theorem js_updateHSV_currentHSVColor (lib : Js.ColorLib) (st : Js.PickerState)
    (hue sat val : Js.JSNum) :
    (Js.updateHSV lib st hue sat val).currentHSVColor = ⟨hue, sat, val⟩ := by
  simp [Js.updateHSV]

/-- With finite pointer x-coordinate and left edge and a zero-width
anchor, the clamping sequence produces the finite offset 0. -/
theorem js_clampedX_zero_width (pos : Js.Rect) (px l : ℚ)
    (hw : pos.width = Js.JSNum.fin 0) (hl : pos.left = Js.JSNum.fin l) :
    Js.clampedX pos (Js.JSNum.fin px) = Js.JSNum.fin 0 := by
  by_cases h : (0 : ℚ) < px - l
  · simp [Js.clampedX, hl, hw, Js.JSNum.sub, Js.JSNum.gtb, Js.JSNum.ltb, h]
  · by_cases h2 : px - l < 0
    · simp [Js.clampedX, hl, hw, Js.JSNum.sub, Js.JSNum.gtb, Js.JSNum.ltb, h, h2]
    · have h3 : px - l = 0 := le_antisymm (not_lt.mp h) (not_lt.mp h2)
      simp [Js.clampedX, hl, hw, Js.JSNum.sub, Js.JSNum.gtb, Js.JSNum.ltb, h, h2, h3]

/-- Claim C9: `updateFromMouseEvent` performs its divisions with no
guard against a zero-sized anchor box. With a finite pointer, a finite
left edge and `width = 0`, the clamped offset is 0, the division
`0/0` yields NaN, and that NaN is committed into the current color
state: the hue for a hue-zone drag, the saturation for a
saturation-value drag, and the alpha for an alpha drag. -/
theorem zero_width_drag_commits_nan (lib : Js.ColorLib) (st : Js.PickerState)
    (pos : Js.Rect) (px l : ℚ) (pageY : Js.JSNum)
    (hw : pos.width = Js.JSNum.fin 0) (hl : pos.left = Js.JSNum.fin l) :
    (st.currentMouseParam = some "h" →
      (Js.updateFromMouseEventCore lib st pos (Js.JSNum.fin px)
          pageY).currentHSVColor.h = Js.JSNum.nan) ∧
    (st.currentMouseParam = some "sv" →
      (Js.updateFromMouseEventCore lib st pos (Js.JSNum.fin px)
          pageY).currentHSVColor.s = Js.JSNum.nan) ∧
    (st.currentMouseParam = some "a" →
      (Js.updateFromMouseEventCore lib st pos (Js.JSNum.fin px)
          pageY).currentRGBColor.a = Js.JSNum.nan) := by
  have hx := js_clampedX_zero_width pos px l hw hl
  refine ⟨fun hz => ?_, fun hz => ?_, fun hz => ?_⟩
  · simp only [Js.updateFromMouseEventCore, hx, hw]
    rw [if_pos hz]
    simp [Js.JSNum.mul, Js.JSNum.div]
  · have hne : st.currentMouseParam ≠ some "h" := by rw [hz]; decide
    simp only [Js.updateFromMouseEventCore, hx, hw]
    rw [if_neg hne, if_pos hz]
    simp [Js.JSNum.mul, Js.JSNum.div, Js.JSNum.round]
  · have hne1 : st.currentMouseParam ≠ some "h" := by rw [hz]; decide
    have hne2 : st.currentMouseParam ≠ some "sv" := by rw [hz]; decide
    simp only [Js.updateFromMouseEventCore, hx, hw]
    rw [if_neg hne1, if_neg hne2, if_pos hz]
    simp [Js.JSNum.mul, Js.JSNum.div, Js.JSNum.round, Js.updateUIValues]

/-- Witness for `zero_width_drag_commits_nan`: a hue drag over the
zero-width anchor `jsRect0` from the concrete state `jsStH` leaves NaN
as the current hue. -/
theorem zero_width_drag_commits_nan_witness :
    (Js.updateFromMouseEventCore jsLib0 jsStH jsRect0 (Js.JSNum.fin 5)
        (Js.JSNum.fin 3)).currentHSVColor.h = Js.JSNum.nan :=
  (zero_width_drag_commits_nan jsLib0 jsStH jsRect0 5 0 (Js.JSNum.fin 3) rfl rfl).1 rfl

end Fast
